import Mathlib

/-!
Shallow embedding of `src/nxt_process.c` (process supervision core of the
NGINX Unit application server) and proofs about its behaviour.

System calls and collaborator calls are modelled by oracles: a record of
booleans (and values) saying whether each call succeeds and what it
returns.  Each embedded function consumes such an oracle, threads the
relevant explicit state (process group set, process table, ...) and
produces a trace of the calls it performed, so that ordering and
"never attempted" properties are statable.
-/

namespace NxtProcess

/-- `NXT_OK` result code. -/
def NXT_OK : Int := 0

/-- `NXT_ERROR` result code. -/
def NXT_ERROR : Int := -1

/-- `STDERR_FILENO`. -/
def STDERR_FILENO : Nat := 2

/-- Log severities used by `nxt_log` in this file. -/
inductive LogLevel
  | crit
  | err
  | info
  | debug
deriving DecidableEq

/-- One `nxt_log` emission: its level and whether the message carries the
causing system error (`%E` / `nxt_errno`). -/
structure LogEntry where
  level : LogLevel
  sysErr : Bool
deriving DecidableEq

/-- `nxt_user_cred_t`: user name, resolved uid / primary gid, and the
optional supplementary group list (`gids == NULL` is modelled as `none`,
`ngroups` mirrors the stored length field). -/
structure UserCred where
  user : String
  uid : Nat
  base_gid : Nat
  ngroups : Nat
  gids : Option (List Nat)
deriving DecidableEq

/-- Privilege-changing system calls performed by `nxt_user_cred_set`,
with their arguments. -/
inductive SysCall
  | setgid (gid : Nat)
  | setgroups (gids : List Nat)
  | initgroups (user : String) (gid : Nat)
  | setuid (uid : Nat)
deriving DecidableEq

/-- Oracle for `nxt_user_cred_set`: whether each system call it may
perform succeeds. -/
structure CredSys where
  setgid_ok : Bool
  setgroups_ok : Bool
  initgroups_ok : Bool
  setuid_ok : Bool
deriving DecidableEq

/-- `nxt_user_cred_set`: apply a resolved credential.  The C code calls
`setgid(uc->base_gid)`; then, if `uc->gids != NULL`,
`setgroups(uc->ngroups, uc->gids)`, else (MacOSX fallback)
`initgroups(uc->user, uc->base_gid)`; then `setuid(uc->uid)`.  The first
failing call makes it return `NXT_ERROR` at once.  Returns the trace of
attempted calls and the result code. -/
def nxt_user_cred_set (sys : CredSys) (uc : UserCred) : List SysCall × Int :=
  if sys.setgid_ok = false then
    ([SysCall.setgid uc.base_gid], NXT_ERROR)
  else
    match uc.gids with
    | some gs =>
      if sys.setgroups_ok = false then
        ([SysCall.setgid uc.base_gid, SysCall.setgroups gs], NXT_ERROR)
      else if sys.setuid_ok = false then
        ([SysCall.setgid uc.base_gid, SysCall.setgroups gs,
          SysCall.setuid uc.uid], NXT_ERROR)
      else
        ([SysCall.setgid uc.base_gid, SysCall.setgroups gs,
          SysCall.setuid uc.uid], NXT_OK)
    | none =>
      if sys.initgroups_ok = false then
        ([SysCall.setgid uc.base_gid,
          SysCall.initgroups uc.user uc.base_gid], NXT_ERROR)
      else if sys.setuid_ok = false then
        ([SysCall.setgid uc.base_gid, SysCall.initgroups uc.user uc.base_gid,
          SysCall.setuid uc.uid], NXT_ERROR)
      else
        ([SysCall.setgid uc.base_gid, SysCall.initgroups uc.user uc.base_gid,
          SysCall.setuid uc.uid], NXT_OK)

/-- `true` iff the call is a `setuid`. -/
def SysCall.isSetuid : SysCall → Bool
  | SysCall.setuid _ => true
  | _ => false

/-- `true` iff the call is a group change (`setgroups` or `initgroups`). -/
def SysCall.isGroupChange : SysCall → Bool
  | SysCall.setgroups _ => true
  | SysCall.initgroups _ _ => true
  | _ => false

/-- Observable events of `nxt_user_groups_get`: the system calls it makes
that touch the resolving process's supplementary group set. -/
inductive GgEvent
  | getgroups_count
  | getgroups_read
  | initgroups_call
  | setgroups_restore
deriving DecidableEq

/-- Oracle for `nxt_user_groups_get`: whether each call succeeds,
the group set `initgroups` installs for the target user, and the
platform's `NGROUPS_MAX`. -/
structure GroupsSys where
  getgroups_count_ok : Bool
  malloc_saved_ok : Bool
  getgroups_saved_ok : Bool
  initgroups_ok : Bool
  getgroups_count2_ok : Bool
  malloc_gids_ok : Bool
  getgroups_gids_ok : Bool
  setgroups_ok : Bool
  target_groups : List Nat
  ngroups_max : Nat
deriving DecidableEq

/-- Result of `nxt_user_groups_get`: trace, the resolving process's
supplementary group set after the call, the credential, and the code. -/
structure GroupsGetResult where
  trace : List GgEvent
  procGroups : List Nat
  uc : UserCred
  ret : Int
deriving DecidableEq

/-- The `restore:` / `fail:` tail of `nxt_user_groups_get`:
`setgroups(nsaved, saved)` is attempted; if it fails the function logs and
overrides `ret` with `NXT_ERROR` (and the live group set stays `cur`);
then `saved` is freed and `ret` returned. -/
def groupsRestoreFree (sys : GroupsSys) (tr : List GgEvent)
    (cur saved : List Nat) (uc : UserCred) (ret : Int) : GroupsGetResult :=
  if sys.setgroups_ok = false then
    { trace := tr ++ [GgEvent.setgroups_restore], procGroups := cur,
      uc := uc, ret := NXT_ERROR }
  else
    { trace := tr ++ [GgEvent.setgroups_restore], procGroups := saved,
      uc := uc, ret := ret }

/-- `nxt_user_groups_get`: emulates `getgrouplist` by saving the current
supplementary group set (`getgroups`), calling `initgroups` for the
target user, reading the resulting set back into `uc->gids`, and
restoring the saved set.  `groups` is the resolving process's
supplementary group set on entry; the result carries the set on exit.
The `nsaved > NGROUPS_MAX` early return is the MacOSX case: `NXT_OK`
with `uc` untouched.  Failures of the two early calls return before
`initgroups`; later failures jump to `restore:`. -/
def nxt_user_groups_get (sys : GroupsSys) (groups : List Nat)
    (uc : UserCred) : GroupsGetResult :=
  if sys.getgroups_count_ok = false then
    { trace := [GgEvent.getgroups_count], procGroups := groups, uc := uc,
      ret := NXT_ERROR }
  else if sys.ngroups_max < groups.length then
    { trace := [GgEvent.getgroups_count], procGroups := groups, uc := uc,
      ret := NXT_OK }
  else if sys.malloc_saved_ok = false then
    { trace := [GgEvent.getgroups_count], procGroups := groups, uc := uc,
      ret := NXT_ERROR }
  else if sys.getgroups_saved_ok = false then
    { trace := [GgEvent.getgroups_count, GgEvent.getgroups_read],
      procGroups := groups, uc := uc, ret := NXT_ERROR }
  else
    let saved := groups
    let tr1 := [GgEvent.getgroups_count, GgEvent.getgroups_read,
                GgEvent.initgroups_call]
    if sys.initgroups_ok = false then
      groupsRestoreFree sys tr1 groups saved uc NXT_ERROR
    else
      let cur := sys.target_groups
      if sys.getgroups_count2_ok = false then
        groupsRestoreFree sys (tr1 ++ [GgEvent.getgroups_count]) cur saved
          uc NXT_ERROR
      else if sys.malloc_gids_ok = false then
        groupsRestoreFree sys (tr1 ++ [GgEvent.getgroups_count]) cur saved
          { uc with gids := none } NXT_ERROR
      else if sys.getgroups_gids_ok = false then
        groupsRestoreFree sys
          (tr1 ++ [GgEvent.getgroups_count, GgEvent.getgroups_read]) cur
          saved { uc with gids := some [] } NXT_ERROR
      else
        groupsRestoreFree sys
          (tr1 ++ [GgEvent.getgroups_count, GgEvent.getgroups_read]) cur
          saved { uc with gids := some cur, ngroups := cur.length } NXT_OK

/-- Oracle for `nxt_user_cred_get`: the `getpwnam` result (uid, primary
gid), the `getgrnam` result, whether `getuid() == 0`, and the oracle for
the nested `nxt_user_groups_get`. -/
structure CredGetSys where
  pwnam : Option (Nat × Nat)
  grnam : Option Nat
  getuid_root : Bool
  gsys : GroupsSys
deriving DecidableEq

/-- `group != NULL && group[0] != '\0'` of the C code. -/
def groupGiven : Option String → Bool
  | none => false
  | some g => !(g = "")

/-- `nxt_user_cred_get`: resolves `uc->user` with `getpwnam`, stores
`uid` / `base_gid` from the entry, optionally overrides `base_gid` from
`getgrnam(group)`, and, when the resolving process is super-user, runs
`nxt_user_groups_get`.  Returns (process group set, credential, code). -/
def nxt_user_cred_get (sys : CredGetSys) (groups : List Nat)
    (uc : UserCred) (group : Option String) : List Nat × UserCred × Int :=
  match sys.pwnam with
  | none => (groups, uc, NXT_ERROR)
  | some pw =>
    let uc1 := { uc with uid := pw.1, base_gid := pw.2 }
    let fin := fun (uc2 : UserCred) =>
      if sys.getuid_root = true then
        let r := nxt_user_groups_get sys.gsys groups uc2
        (r.procGroups, r.uc, r.ret)
      else
        (groups, uc2, NXT_OK)
    if groupGiven group = true then
      match sys.grnam with
      | none => (groups, uc1, NXT_ERROR)
      | some gid => fin { uc1 with base_gid := gid }
    else
      fin uc1

/-- Observable steps of `nxt_process_start` (the bootstrap sequence). -/
inductive StartEvent
  | cred_set
  | service_get
  | engine_change
  | thread_pool_create
  | port_read_close_main
  | port_write_enable_main
  | port_write_close_own
  | role_start
  | port_enable
  | ready_send
deriving DecidableEq

/-- How `nxt_process_start` ends: a normal return, or `exit(status)`. -/
inductive StartOutcome
  | returned
  | exited (status : Nat)
deriving DecidableEq

/-- Oracle for `nxt_process_start`: the configuration and the outcome of
each fallible step. -/
structure StartSys where
  user_cred_present : Bool
  getuid_root : Bool
  cred_set_ok : Bool
  service_found : Bool
  engine_change_ok : Bool
  thread_pool_ok : Bool
  start_ok : Bool
  ready_send_ok : Bool
deriving DecidableEq

/-- `nxt_process_start`: the bootstrap sequence of a freshly created
process.  In source order: privilege switch (only when a credential is
configured and `getuid() == 0`), `nxt_service_get` for the engine
backend, `nxt_event_engine_change`, `nxt_runtime_thread_pool_create`,
main-port direction lock-down, own-port write close, the role entry
point `init->start`, `nxt_port_enable`, and the `NXT_PORT_MSG_READY`
send.  Every failure jumps to `fail:`, which is `exit(1)`. -/
def nxt_process_start (sys : StartSys) : List StartEvent × StartOutcome :=
  let credTr : List StartEvent :=
    if sys.user_cred_present && sys.getuid_root then [StartEvent.cred_set]
    else []
  if sys.user_cred_present && sys.getuid_root && !sys.cred_set_ok then
    (credTr, StartOutcome.exited 1)
  else
    let tr1 := credTr ++ [StartEvent.service_get]
    if sys.service_found = false then
      (tr1, StartOutcome.exited 1)
    else
      let tr2 := tr1 ++ [StartEvent.engine_change]
      if sys.engine_change_ok = false then
        (tr2, StartOutcome.exited 1)
      else
        let tr3 := tr2 ++ [StartEvent.thread_pool_create]
        if sys.thread_pool_ok = false then
          (tr3, StartOutcome.exited 1)
        else
          let tr4 := tr3 ++ [StartEvent.port_read_close_main,
                             StartEvent.port_write_enable_main,
                             StartEvent.port_write_close_own,
                             StartEvent.role_start]
          if sys.start_ok = false then
            (tr4, StartOutcome.exited 1)
          else
            let tr5 := tr4 ++ [StartEvent.port_enable, StartEvent.ready_send]
            if sys.ready_send_ok = false then
              (tr5, StartOutcome.exited 1)
            else
              (tr5, StartOutcome.returned)

/-- One entry of the runtime process table: pid, the `ready` flag, and
whether the `incoming` / `outgoing` bulk message-buffer mappings are
still held (`nxt_port_mmaps_destroy` clears them). -/
structure ProcRec where
  pid : Nat
  ready : Bool
  incoming_mapped : Bool
  outgoing_mapped : Bool
deriving DecidableEq

/-- Result of the `fork()` primitive, branched once at the call site. -/
inductive ForkResult
  | failed
  | child
  | parent (pid : Nat)
deriving DecidableEq

/-- Result of `nxt_process_create`: the process table after the call,
the returned pid value, how the branch ended, and the log emissions. -/
structure CreateResult where
  table : List ProcRec
  ret : Int
  outcome : StartOutcome
  logs : List LogEntry
deriving DecidableEq

/-- `nxt_process_create`: `fork()` and branch.
On `-1`: log critical with `nxt_errno`, no table change, return `-1`.
In the child: refresh the cached pid, walk the inherited table once
(records with `ready == 0` are removed, ready records get both mmap
directions destroyed), add the child's own record, run
`nxt_process_start` (which either returns or exits), and only then set
`process->ready = 1`.  In the parent: store the child pid in the record,
add it to the table, return the pid.  (The collaborator calls
`rt->types = 0`, `nxt_port_reset_next_id` and
`nxt_event_engine_thread_adopt` mutate state outside this model.) -/
def nxt_process_create (fr : ForkResult) (childPid : Nat) (sys : StartSys)
    (rt : List ProcRec) (process : ProcRec) : CreateResult :=
  match fr with
  | ForkResult.failed =>
    { table := rt, ret := -1, outcome := StartOutcome.returned,
      logs := [{ level := LogLevel.crit, sysErr := true }] }
  | ForkResult.child =>
    let self := { process with pid := childPid }
    let pruned := rt.filterMap fun p =>
      if p.ready = true then
        some { p with incoming_mapped := false, outgoing_mapped := false }
      else
        none
    match nxt_process_start sys with
    | (_, StartOutcome.returned) =>
      { table := pruned ++ [{ self with ready := true }], ret := 0,
        outcome := StartOutcome.returned, logs := [] }
    | (_, StartOutcome.exited s) =>
      { table := pruned ++ [self], ret := 0,
        outcome := StartOutcome.exited s, logs := [] }
  | ForkResult.parent pid =>
    { table := rt ++ [{ process with pid := pid }], ret := (pid : Int),
      outcome := StartOutcome.returned, logs := [] }

/-- The lifecycle state `nxt_process_port_mp_cleanup` acts on: the
record's `port_cleanups` counter and how many times
`nxt_runtime_process_remove` has been called on the record. -/
structure PState where
  port_cleanups : Int
  removals : Nat
deriving DecidableEq

/-- `nxt_process_port_mp_cleanup`: one firing of the port-pool cleanup
callback: decrement `process->port_cleanups`, and when the counter has
reached zero call `nxt_runtime_process_remove`. -/
def nxt_process_port_mp_cleanup (s : PState) : PState :=
  { port_cleanups := s.port_cleanups - 1,
    removals :=
      if s.port_cleanups - 1 = 0 then s.removals + 1 else s.removals }

/-- `k` successive firings of the cleanup callback. -/
def fireN : Nat → PState → PState
  | 0, s => s
  | Nat.succ k, s => nxt_process_port_mp_cleanup (fireN k s)

/-- The statements of `nxt_process_port_add`, in source order. -/
inductive PortAddStep
  | set_owner
  | append_port
  | register_cleanup
  | incr_cleanups
deriving DecidableEq

/-- A port as far as `nxt_process_port_add` touches it: its id and its
owning-process back-reference (`port->process`, by pid). -/
structure PortRec where
  id : Nat
  owner : Option Nat
deriving DecidableEq

/-- The fields of a process record that `nxt_process_port_add` touches:
the ordered `ports` queue (by port id), the `port_cleanups` counter, and
the pools carrying a registered `nxt_process_port_mp_cleanup` callback
(by port id). -/
structure ProcPorts where
  pid : Nat
  ports : List Nat
  port_cleanups : Int
  cleanup_callbacks : List Nat
deriving DecidableEq

/-- `nxt_process_port_add`: set `port->process`, insert the port at the
tail of `process->ports`, register `nxt_process_port_mp_cleanup` on
`port->mem_pool`, and increment `process->port_cleanups` (in that
source order, returned as the trace). -/
def nxt_process_port_add (process : ProcPorts) (port : PortRec) :
    ProcPorts × PortRec × List PortAddStep :=
  ({ process with
      ports := process.ports ++ [port.id],
      port_cleanups := process.port_cleanups + 1,
      cleanup_callbacks := process.cleanup_callbacks ++ [port.id] },
   { port with owner := some process.pid },
   [PortAddStep.set_owner, PortAddStep.append_port,
    PortAddStep.register_cleanup, PortAddStep.incr_cleanups])

/-- Oracle for `nxt_process_daemon`: the fork result, whether `setsid`
succeeds, the descriptor `open("/dev/null", O_RDWR)` returns (`none` on
failure), and whether the two `dup2` calls succeed. -/
structure DaemonSys where
  fork_res : ForkResult
  setsid_ok : Bool
  open_null : Option Nat
  dup2_stdin_ok : Bool
  dup2_stdout_ok : Bool
deriving DecidableEq

/-- How `nxt_process_daemon` ends for the calling process. -/
inductive DaemonOutcome
  | parentExit0
  | ok
  | error
deriving DecidableEq

/-- Result of `nxt_process_daemon`: the outcome, which descriptor (if
any) was closed by `nxt_fd_close`, and the log emissions. -/
structure DaemonResult where
  outcome : DaemonOutcome
  closed_fd : Option Nat
  logs : List LogEntry
deriving DecidableEq

/-- `nxt_process_daemon`: fork (parent exits 0; fork failure logs
critical via `fail:` and returns `NXT_ERROR`), `setsid`, `umask(0)`,
open `/dev/null`, `dup2` onto stdin and stdout, and close the temporary
descriptor only when `fd > STDERR_FILENO`. -/
def nxt_process_daemon (sys : DaemonSys) : DaemonResult :=
  match sys.fork_res with
  | ForkResult.failed =>
    { outcome := DaemonOutcome.error, closed_fd := none,
      logs := [{ level := LogLevel.crit, sysErr := true }] }
  | ForkResult.parent _ =>
    { outcome := DaemonOutcome.parentExit0, closed_fd := none, logs := [] }
  | ForkResult.child =>
    if sys.setsid_ok = false then
      { outcome := DaemonOutcome.error, closed_fd := none,
        logs := [{ level := LogLevel.crit, sysErr := true }] }
    else
      match sys.open_null with
      | none =>
        { outcome := DaemonOutcome.error, closed_fd := none,
          logs := [{ level := LogLevel.crit, sysErr := true }] }
      | some fd =>
        if sys.dup2_stdin_ok = false then
          { outcome := DaemonOutcome.error, closed_fd := none,
            logs := [{ level := LogLevel.crit, sysErr := true }] }
        else if sys.dup2_stdout_ok = false then
          { outcome := DaemonOutcome.error, closed_fd := none,
            logs := [{ level := LogLevel.crit, sysErr := true }] }
        else
          { outcome := DaemonOutcome.ok,
            closed_fd := if STDERR_FILENO < fd then some fd else none,
            logs := [] }

/-! Theorems. -/

/-- Claim C2: `nxt_user_cred_set` performs the privilege transition in
the fixed order primary group, supplementary groups (or the
`initgroups` fallback), user id; any failing step makes the sequence
return `NXT_ERROR` at once, and the user-id change is never attempted
when the primary-group or supplementary-group change failed. -/
theorem nxt_user_cred_set_c2 (sys : CredSys) (uc : UserCred) :
    ((nxt_user_cred_set sys uc).1.head? = some (SysCall.setgid uc.base_gid))
    ∧ (sys.setgid_ok = false →
        nxt_user_cred_set sys uc = ([SysCall.setgid uc.base_gid], NXT_ERROR))
    ∧ (∀ gs, uc.gids = some gs → sys.setgid_ok = true →
        sys.setgroups_ok = false →
        nxt_user_cred_set sys uc
          = ([SysCall.setgid uc.base_gid, SysCall.setgroups gs], NXT_ERROR))
    ∧ (uc.gids = none → sys.setgid_ok = true → sys.initgroups_ok = false →
        nxt_user_cred_set sys uc
          = ([SysCall.setgid uc.base_gid,
              SysCall.initgroups uc.user uc.base_gid], NXT_ERROR))
    ∧ (∀ gs, uc.gids = some gs → sys.setgid_ok = true →
        sys.setgroups_ok = true →
        (nxt_user_cred_set sys uc).1
          = [SysCall.setgid uc.base_gid, SysCall.setgroups gs,
             SysCall.setuid uc.uid])
    ∧ (uc.gids = none → sys.setgid_ok = true → sys.initgroups_ok = true →
        (nxt_user_cred_set sys uc).1
          = [SysCall.setgid uc.base_gid,
             SysCall.initgroups uc.user uc.base_gid, SysCall.setuid uc.uid])
    ∧ (sys.setuid_ok = false → (nxt_user_cred_set sys uc).2 = NXT_ERROR)
    ∧ ((nxt_user_cred_set sys uc).1.any SysCall.isSetuid = true →
        sys.setgid_ok = true
        ∧ (uc.gids.isSome = true → sys.setgroups_ok = true)
        ∧ (uc.gids = none → sys.initgroups_ok = true)) := by
  rcases sys with ⟨a, b, c, d⟩
  rcases uc with ⟨u, uid, bgid, ng, gids⟩
  cases gids <;> cases a <;> cases b <;> cases c <;> cases d <;>
    simp [nxt_user_cred_set, NXT_OK, NXT_ERROR, SysCall.isSetuid]

/-- Witness for C2 at a concrete input: primary group change succeeds,
supplementary change fails, the sequence stops there with `NXT_ERROR`
and no `setuid`. -/
theorem nxt_user_cred_set_c2_witness :
    nxt_user_cred_set ⟨true, false, true, true⟩
        ⟨"nobody", 65534, 65534, 1, some [65534]⟩
      = ([SysCall.setgid 65534, SysCall.setgroups [65534]], NXT_ERROR) :=
  (nxt_user_cred_set_c2 ⟨true, false, true, true⟩
      ⟨"nobody", 65534, 65534, 1, some [65534]⟩).2.2.1 [65534] rfl rfl rfl

/-- Claim C6 counterexample: in the actual `nxt_process_port_add`, the
callback registration comes strictly before the `port_cleanups`
increment, refuting "the increment happens first". -/
theorem nxt_process_port_add_c6_cex :
    ¬ ((nxt_process_port_add ⟨1, [], 0, []⟩ ⟨7, none⟩).2.2.indexOf
          PortAddStep.incr_cleanups
        < (nxt_process_port_add ⟨1, [], 0, []⟩ ⟨7, none⟩).2.2.indexOf
          PortAddStep.register_cleanup) := by
  decide

/-- Claim C6 (amended): `nxt_process_port_add` sets the port's
owning-process back-reference, appends the port at the tail of the
record's ports collection, and registers on the port's pool a cleanup
callback (`nxt_process_port_mp_cleanup`, which decrements
`port_cleanups`); the increment of `port_cleanups` happens after the
callback registration, not before. -/
theorem nxt_process_port_add_c6 (process : ProcPorts) (port : PortRec) :
    ((nxt_process_port_add process port).2.1.owner = some process.pid)
    ∧ ((nxt_process_port_add process port).1.ports
        = process.ports ++ [port.id])
    ∧ ((nxt_process_port_add process port).1.cleanup_callbacks
        = process.cleanup_callbacks ++ [port.id])
    ∧ ((nxt_process_port_add process port).1.port_cleanups
        = process.port_cleanups + 1)
    ∧ (∀ c r,
        (nxt_process_port_mp_cleanup
            { port_cleanups := c, removals := r }).port_cleanups = c - 1)
    ∧ ((nxt_process_port_add process port).2.2.indexOf
          PortAddStep.register_cleanup
        < (nxt_process_port_add process port).2.2.indexOf
          PortAddStep.incr_cleanups) := by
  refine ⟨rfl, rfl, rfl, rfl, fun c r => rfl, ?_⟩
  have htr : (nxt_process_port_add process port).2.2
      = [PortAddStep.set_owner, PortAddStep.append_port,
         PortAddStep.register_cleanup, PortAddStep.incr_cleanups] := rfl
  rw [htr]
  decide

/-- Claim C7: when `fork()` fails in `nxt_process_create`, the failure
is logged at critical severity with the causing system error, the call
returns `-1`, and the process table is unchanged. -/
theorem nxt_process_create_c7 (childPid : Nat) (sys : StartSys)
    (rt : List ProcRec) (process : ProcRec) :
    ((nxt_process_create ForkResult.failed childPid sys rt process).ret = -1)
    ∧ ((nxt_process_create ForkResult.failed childPid sys rt process).table
        = rt)
    ∧ ((nxt_process_create ForkResult.failed childPid sys rt process).logs
        = [{ level := LogLevel.crit, sysErr := true }])
    ∧ ((nxt_process_create ForkResult.failed childPid sys rt
          process).outcome = StartOutcome.returned) :=
  ⟨rfl, rfl, rfl, rfl⟩

/-- Claim C10: `nxt_user_cred_get` stores `uid` and `base_gid` from the
password entry before the optional group lookup, so a failing
`getgrnam` returns `NXT_ERROR` with the credential already partially
mutated: resolution is not atomic on error. -/
theorem nxt_user_cred_get_c10 (sys : CredGetSys) (groups : List Nat)
    (uc : UserCred) (g : String) (pw : Nat × Nat)
    (hpw : sys.pwnam = some pw) (hg : ¬ g = "") (hgr : sys.grnam = none) :
    nxt_user_cred_get sys groups uc (some g)
      = (groups, { uc with uid := pw.1, base_gid := pw.2 }, NXT_ERROR) := by
  rcases sys with ⟨p, gr, root, gs⟩
  simp only at hpw hgr
  subst hpw
  subst hgr
  simp [nxt_user_cred_get, groupGiven, hg]

/-- Invariant of repeated cleanup firings: after `k` firings starting
from a counter of `N ≥ 1` and no removal yet, the counter reads
`N - k` and the record has been removed exactly once iff `N ≤ k`. -/
lemma fireN_invariant (N : Nat) (hN : 1 ≤ N) (k : Nat) :
    (fireN k { port_cleanups := (N : Int), removals := 0 }).port_cleanups
        = (N : Int) - (k : Int)
    ∧ (fireN k { port_cleanups := (N : Int), removals := 0 }).removals
        = if N ≤ k then 1 else 0 := by
  induction k with
  | zero =>
    constructor
    · simp [fireN]
    · simp [fireN]
      split_ifs <;> omega
  | succ k ih =>
    obtain ⟨h1, h2⟩ := ih
    constructor
    · simp [fireN, nxt_process_port_mp_cleanup, h1]
      omega
    · simp [fireN, nxt_process_port_mp_cleanup, h1, h2]
      split_ifs <;> omega

/-- Claim C5: for a record with `N` attached ports (counter `N`), each
firing of `nxt_process_port_mp_cleanup` decrements `port_cleanups` by
one, and `nxt_runtime_process_remove` has run exactly once after `k`
firings iff `N ≤ k`: the removal happens at the `N`-th callback, never
earlier and never more than once. -/
theorem nxt_process_port_mp_cleanup_c5 (N k : Nat) (hN : 1 ≤ N) :
    ((fireN k { port_cleanups := (N : Int), removals := 0 }).port_cleanups
        = (N : Int) - (k : Int))
    ∧ ((fireN k { port_cleanups := (N : Int), removals := 0 }).removals
        = if N ≤ k then 1 else 0) :=
  fireN_invariant N hN k

/-- Witness for C5 at a concrete input: two ports, two firings, one
removal. -/
theorem nxt_process_port_mp_cleanup_c5_witness :
    (fireN 2 { port_cleanups := (2 : Int), removals := 0 }).removals = 1 := by
  have h := (nxt_process_port_mp_cleanup_c5 2 2 (by decide)).2
  simpa using h

/-- Claim C1 counterexample: with every bootstrap step succeeding except
the ready-notification send, the process does exit with status 1, but
`nxt_port_enable` has already run: the send comes after the enable
step, so a failing send does not prevent reaching it. -/
theorem nxt_process_start_c1_cex :
    StartEvent.port_enable
        ∈ (nxt_process_start
            ⟨false, false, true, true, true, true, true, false⟩).1
    ∧ (nxt_process_start
          ⟨false, false, true, true, true, true, true, false⟩).2
        = StartOutcome.exited 1 := by
  decide

/-- Claim C1 (amended): for every failing bootstrap step among engine
backend lookup / engine rebind, thread pool creation, and the role
entry point, `nxt_process_start` never reaches `nxt_port_enable` and
exits with status 1; a failing ready-notification send also exits with
status 1, but only after `nxt_port_enable` has run. -/
theorem nxt_process_start_c1 (sys : StartSys) :
    ((sys.service_found = false ∨ sys.engine_change_ok = false
        ∨ sys.thread_pool_ok = false ∨ sys.start_ok = false) →
      StartEvent.port_enable ∉ (nxt_process_start sys).1
      ∧ (nxt_process_start sys).2 = StartOutcome.exited 1)
    ∧ (sys.service_found = true → sys.engine_change_ok = true →
        sys.thread_pool_ok = true → sys.start_ok = true →
        (sys.user_cred_present = true → sys.getuid_root = true →
          sys.cred_set_ok = true) →
        sys.ready_send_ok = false →
        StartEvent.port_enable ∈ (nxt_process_start sys).1
        ∧ (nxt_process_start sys).2 = StartOutcome.exited 1) := by
  rcases sys with ⟨a, b, c, d, e, f, g, h⟩
  cases a <;> cases b <;> cases c <;> cases d <;> cases e <;> cases f <;>
    cases g <;> cases h <;> decide

/-- Witness for C1 at a concrete input: a forced engine-rebind failure
terminates the process before port handlers are enabled. -/
theorem nxt_process_start_c1_witness :
    StartEvent.port_enable
        ∉ (nxt_process_start
            ⟨false, false, true, true, false, true, true, true⟩).1
    ∧ (nxt_process_start
          ⟨false, false, true, true, false, true, true, true⟩).2
        = StartOutcome.exited 1 :=
  (nxt_process_start_c1
      ⟨false, false, true, true, false, true, true, true⟩).1
    (Or.inr (Or.inl rfl))

/-- The child's one-pass walk of the inherited table equals keeping
exactly the ready records, in order, with both bulk-mapping directions
destroyed. -/
lemma child_walk_eq (rt : List ProcRec) :
    (rt.filterMap fun p =>
        if p.ready = true then
          some { p with incoming_mapped := false, outgoing_mapped := false }
        else none)
      = (rt.filter fun p => p.ready).map
          (fun p => { p with incoming_mapped := false,
                             outgoing_mapped := false }) := by
  induction rt with
  | nil => rfl
  | cons a l ih =>
    cases h : a.ready <;>
      simp [List.filterMap_cons, List.filter_cons, h, ih]

/-- Claim C4: in the child branch of `nxt_process_create`, the
inherited table is walked once: not-ready records are removed, ready
records keep their place with both bulk-mapping directions destroyed;
the child's own record is inserted last and is marked ready exactly
when `nxt_process_start` returns without error. -/
theorem nxt_process_create_c4 (childPid : Nat) (sys : StartSys)
    (rt : List ProcRec) (process : ProcRec)
    (hfresh : process.ready = false) :
    ((nxt_process_create ForkResult.child childPid sys rt
          process).table.dropLast
        = (rt.filter fun p => p.ready).map
            (fun p => { p with incoming_mapped := false,
                               outgoing_mapped := false }))
    ∧ (∀ p, p ∈ (nxt_process_create ForkResult.child childPid sys rt
          process).table.dropLast →
        p.ready = true ∧ p.incoming_mapped = false
          ∧ p.outgoing_mapped = false)
    ∧ (∃ self,
        (nxt_process_create ForkResult.child childPid sys rt
            process).table.getLast? = some self
        ∧ self.pid = childPid
        ∧ (self.ready = true
            ↔ (nxt_process_start sys).2 = StartOutcome.returned)) := by
  have hmem : ∀ p, p ∈ (rt.filter fun q => q.ready).map
      (fun q => { q with incoming_mapped := false,
                         outgoing_mapped := false }) →
      p.ready = true ∧ p.incoming_mapped = false
        ∧ p.outgoing_mapped = false := by
    intro p hp
    simp only [List.mem_map, List.mem_filter] at hp
    obtain ⟨q, ⟨_, hq2⟩, rfl⟩ := hp
    exact ⟨hq2, rfl, rfl⟩
  rcases hstart : nxt_process_start sys with ⟨tr, oc⟩
  cases oc with
  | returned =>
    have htab : (nxt_process_create ForkResult.child childPid sys rt
        process).table
        = ((rt.filter fun p => p.ready).map
            (fun p => { p with incoming_mapped := false,
                               outgoing_mapped := false }))
          ++ [{ process with pid := childPid, ready := true }] := by
      simp [nxt_process_create, hstart, child_walk_eq]
    refine ⟨?_, ?_, ?_⟩
    · rw [htab, List.dropLast_concat]
    · rw [htab, List.dropLast_concat]
      exact hmem
    · refine ⟨{ process with pid := childPid, ready := true }, ?_, rfl, ?_⟩
      · rw [htab, List.getLast?_concat]
      · simp [hstart]
  | exited s =>
    have htab : (nxt_process_create ForkResult.child childPid sys rt
        process).table
        = ((rt.filter fun p => p.ready).map
            (fun p => { p with incoming_mapped := false,
                               outgoing_mapped := false }))
          ++ [{ process with pid := childPid }] := by
      simp [nxt_process_create, hstart, child_walk_eq]
    refine ⟨?_, ?_, ?_⟩
    · rw [htab, List.dropLast_concat]
    · rw [htab, List.dropLast_concat]
      exact hmem
    · refine ⟨{ process with pid := childPid }, ?_, rfl, ?_⟩
      · rw [htab, List.getLast?_concat]
      · simp [hstart, hfresh]

/-- Witness for C4 at a concrete input: one ready record (kept, maps
destroyed), one not-ready record (removed), bootstrap succeeding. -/
theorem nxt_process_create_c4_witness :
    ((nxt_process_create ForkResult.child 42
          ⟨false, false, true, true, true, true, true, true⟩
          [⟨10, true, true, true⟩, ⟨11, false, false, false⟩]
          ⟨0, false, false, false⟩).table.dropLast
        = ([⟨10, true, true, true⟩,
            (⟨11, false, false, false⟩ : ProcRec)].filter
              fun p => p.ready).map
            (fun p => { p with incoming_mapped := false,
                               outgoing_mapped := false }))
    ∧ (∀ p, p ∈ (nxt_process_create ForkResult.child 42
          ⟨false, false, true, true, true, true, true, true⟩
          [⟨10, true, true, true⟩, ⟨11, false, false, false⟩]
          ⟨0, false, false, false⟩).table.dropLast →
        p.ready = true ∧ p.incoming_mapped = false
          ∧ p.outgoing_mapped = false)
    ∧ (∃ self,
        (nxt_process_create ForkResult.child 42
            ⟨false, false, true, true, true, true, true, true⟩
            [⟨10, true, true, true⟩, ⟨11, false, false, false⟩]
            ⟨0, false, false, false⟩).table.getLast? = some self
        ∧ self.pid = 42
        ∧ (self.ready = true
            ↔ (nxt_process_start
                ⟨false, false, true, true, true, true, true, true⟩).2
              = StartOutcome.returned)) :=
  nxt_process_create_c4 42
    ⟨false, false, true, true, true, true, true, true⟩
    [⟨10, true, true, true⟩, ⟨11, false, false, false⟩]
    ⟨0, false, false, false⟩ rfl

/-- Claim C3 counterexample: with enumeration succeeding and only the
restoring `setgroups` failing, the call returns `NXT_ERROR` but the
resolving process's supplementary group set is left as the target
user's groups, not the original set: "unchanged whether it succeeds or
fails" does not hold when the restore itself fails. -/
theorem nxt_user_groups_get_c3_cex :
    ((nxt_user_groups_get
          ⟨true, true, true, true, true, true, true, false, [5, 6], 64⟩
          [0] ⟨"root", 0, 0, 0, none⟩).ret = NXT_ERROR)
    ∧ ((nxt_user_groups_get
          ⟨true, true, true, true, true, true, true, false, [5, 6], 64⟩
          [0] ⟨"root", 0, 0, 0, none⟩).procGroups = [5, 6])
    ∧ ((nxt_user_groups_get
          ⟨true, true, true, true, true, true, true, false, [5, 6], 64⟩
          [0] ⟨"root", 0, 0, 0, none⟩).procGroups ≠ [0]) := by
  decide

/-- Claim C3 (amended): in `nxt_user_groups_get` the saved set is
restored by `setgroups` in every path that attempted `initgroups`,
even when group adoption or read-back failed; a failing restore forces
`NXT_ERROR` even if enumeration had succeeded; the process's own
supplementary group set is unchanged on return except when the restore
itself fails, and in particular is always unchanged when the call
returns success. -/
theorem nxt_user_groups_get_c3 (sys : GroupsSys) (groups : List Nat)
    (uc : UserCred) :
    (GgEvent.initgroups_call ∈ (nxt_user_groups_get sys groups uc).trace →
      GgEvent.setgroups_restore ∈ (nxt_user_groups_get sys groups uc).trace)
    ∧ (sys.setgroups_ok = false →
        GgEvent.setgroups_restore
            ∈ (nxt_user_groups_get sys groups uc).trace →
        (nxt_user_groups_get sys groups uc).ret = NXT_ERROR)
    ∧ ((nxt_user_groups_get sys groups uc).procGroups = groups
        ∨ (sys.setgroups_ok = false
            ∧ (nxt_user_groups_get sys groups uc).ret = NXT_ERROR))
    ∧ ((nxt_user_groups_get sys groups uc).ret = NXT_OK →
        (nxt_user_groups_get sys groups uc).procGroups = groups) := by
  rcases sys with ⟨g1, g2, g3, g4, g5, g6, g7, g8, tgt, mx⟩
  by_cases h1 : g1 = false
  · simp [nxt_user_groups_get, h1, NXT_OK, NXT_ERROR]
  by_cases hm : mx < groups.length
  · simp [nxt_user_groups_get, h1, hm, NXT_OK, NXT_ERROR]
  by_cases h2 : g2 = false
  · simp [nxt_user_groups_get, h1, hm, h2, NXT_OK, NXT_ERROR]
  by_cases h3 : g3 = false
  · simp [nxt_user_groups_get, h1, hm, h2, h3, NXT_OK, NXT_ERROR]
  by_cases h4 : g4 = false
  · by_cases h8 : g8 = false <;>
      simp [nxt_user_groups_get, groupsRestoreFree, h1, hm, h2, h3, h4, h8,
        NXT_OK, NXT_ERROR]
  by_cases h5 : g5 = false
  · by_cases h8 : g8 = false <;>
      simp [nxt_user_groups_get, groupsRestoreFree, h1, hm, h2, h3, h4, h5,
        h8, NXT_OK, NXT_ERROR]
  by_cases h6 : g6 = false
  · by_cases h8 : g8 = false <;>
      simp [nxt_user_groups_get, groupsRestoreFree, h1, hm, h2, h3, h4, h5,
        h6, h8, NXT_OK, NXT_ERROR]
  by_cases h7 : g7 = false
  · by_cases h8 : g8 = false <;>
      simp [nxt_user_groups_get, groupsRestoreFree, h1, hm, h2, h3, h4, h5,
        h6, h7, h8, NXT_OK, NXT_ERROR]
  by_cases h8 : g8 = false <;>
    simp [nxt_user_groups_get, groupsRestoreFree, h1, hm, h2, h3, h4, h5,
      h6, h7, h8, NXT_OK, NXT_ERROR]

/-- Witness for C3 at a concrete input: with every call succeeding, the
restore runs after the adoption, the group set is restored to the
original, and the call returns success. -/
theorem nxt_user_groups_get_c3_witness :
    (GgEvent.initgroups_call
        ∈ (nxt_user_groups_get
            ⟨true, true, true, true, true, true, true, true, [5, 6], 64⟩
            [0] ⟨"root", 0, 0, 0, none⟩).trace →
      GgEvent.setgroups_restore
        ∈ (nxt_user_groups_get
            ⟨true, true, true, true, true, true, true, true, [5, 6], 64⟩
            [0] ⟨"root", 0, 0, 0, none⟩).trace)
    ∧ ((⟨true, true, true, true, true, true, true, true, [5, 6],
          64⟩ : GroupsSys).setgroups_ok = false →
        GgEvent.setgroups_restore
            ∈ (nxt_user_groups_get
                ⟨true, true, true, true, true, true, true, true, [5, 6], 64⟩
                [0] ⟨"root", 0, 0, 0, none⟩).trace →
        (nxt_user_groups_get
            ⟨true, true, true, true, true, true, true, true, [5, 6], 64⟩
            [0] ⟨"root", 0, 0, 0, none⟩).ret = NXT_ERROR)
    ∧ ((nxt_user_groups_get
          ⟨true, true, true, true, true, true, true, true, [5, 6], 64⟩
          [0] ⟨"root", 0, 0, 0, none⟩).procGroups = [0]
        ∨ ((⟨true, true, true, true, true, true, true, true, [5, 6],
              64⟩ : GroupsSys).setgroups_ok = false
            ∧ (nxt_user_groups_get
                ⟨true, true, true, true, true, true, true, true, [5, 6], 64⟩
                [0] ⟨"root", 0, 0, 0, none⟩).ret = NXT_ERROR))
    ∧ ((nxt_user_groups_get
          ⟨true, true, true, true, true, true, true, true, [5, 6], 64⟩
          [0] ⟨"root", 0, 0, 0, none⟩).ret = NXT_OK →
        (nxt_user_groups_get
            ⟨true, true, true, true, true, true, true, true, [5, 6], 64⟩
            [0] ⟨"root", 0, 0, 0, none⟩).procGroups = [0]) :=
  nxt_user_groups_get_c3
    ⟨true, true, true, true, true, true, true, true, [5, 6], 64⟩
    [0] ⟨"root", 0, 0, 0, none⟩

/-- Claim C8: when the first `getgroups(0, NULL)` reports more current
groups than `NGROUPS_MAX`, `nxt_user_groups_get` returns `NXT_OK` with
the credential untouched (`gids` absent), and `nxt_user_cred_set` on
such a credential takes the `initgroups` fallback. -/
theorem nxt_user_groups_get_c8 (sys : GroupsSys) (csys : CredSys)
    (groups : List Nat) (uc : UserCred)
    (hok : sys.getgroups_count_ok = true)
    (hmax : sys.ngroups_max < groups.length)
    (hgids : uc.gids = none) :
    ((nxt_user_groups_get sys groups uc).ret = NXT_OK)
    ∧ ((nxt_user_groups_get sys groups uc).uc = uc)
    ∧ ((nxt_user_groups_get sys groups uc).uc.gids = none)
    ∧ (csys.setgid_ok = true →
        SysCall.initgroups uc.user uc.base_gid
          ∈ (nxt_user_cred_set csys
              (nxt_user_groups_get sys groups uc).uc).1) := by
  have huc : nxt_user_groups_get sys groups uc
      = { trace := [GgEvent.getgroups_count], procGroups := groups,
          uc := uc, ret := NXT_OK } := by
    simp [nxt_user_groups_get, hok, hmax]
  rw [huc]
  refine ⟨rfl, rfl, hgids, ?_⟩
  intro hsg
  rcases uc with ⟨u, uid, bg, ng, gids⟩
  simp only at hgids
  subst hgids
  rcases csys with ⟨a, b, c, d⟩
  simp only at hsg
  subst hsg
  cases c <;> cases d <;> simp [nxt_user_cred_set]

/-- Witness for C8 at a concrete input: one current group, hard
maximum 0, credential with absent `gids`; the privilege switch then
performs the `initgroups` fallback. -/
theorem nxt_user_groups_get_c8_witness :
    ((nxt_user_groups_get
          ⟨true, true, true, true, true, true, true, true, [], 0⟩
          [1] ⟨"u", 9, 7, 0, none⟩).ret = NXT_OK)
    ∧ ((nxt_user_groups_get
          ⟨true, true, true, true, true, true, true, true, [], 0⟩
          [1] ⟨"u", 9, 7, 0, none⟩).uc = ⟨"u", 9, 7, 0, none⟩)
    ∧ ((nxt_user_groups_get
          ⟨true, true, true, true, true, true, true, true, [], 0⟩
          [1] ⟨"u", 9, 7, 0, none⟩).uc.gids = none)
    ∧ ((⟨true, true, true, true⟩ : CredSys).setgid_ok = true →
        SysCall.initgroups "u" 7
          ∈ (nxt_user_cred_set ⟨true, true, true, true⟩
              (nxt_user_groups_get
                ⟨true, true, true, true, true, true, true, true, [], 0⟩
                [1] ⟨"u", 9, 7, 0, none⟩).uc).1) :=
  nxt_user_groups_get_c8
    ⟨true, true, true, true, true, true, true, true, [], 0⟩
    ⟨true, true, true, true⟩ [1] ⟨"u", 9, 7, 0, none⟩ rfl (by decide) rfl

/-- Claim C9 counterexample: with `/dev/null` opened as descriptor 1
(possible when the standard descriptors were closed at entry), the
descriptor differs from stderr yet `nxt_process_daemon` does not close
it: the code's condition is `fd > STDERR_FILENO`, not
`fd != STDERR_FILENO`. -/
theorem nxt_process_daemon_c9_cex :
    ((nxt_process_daemon
          ⟨ForkResult.child, true, some 1, true, true⟩).closed_fd = none)
    ∧ ((1 : Nat) ≠ STDERR_FILENO)
    ∧ ((nxt_process_daemon
          ⟨ForkResult.child, true, some 1, true, true⟩).outcome
        = DaemonOutcome.ok) := by
  decide

/-- Claim C9 (amended): after redirecting stdin and stdout to the null
device, `nxt_process_daemon` closes the temporary descriptor exactly
when it is numerically greater than the standard error descriptor; in
particular it is left open when it equals any of the three standard
descriptors. -/
theorem nxt_process_daemon_c9 (sys : DaemonSys) (fd : Nat)
    (hf : sys.fork_res = ForkResult.child) (hs : sys.setsid_ok = true)
    (ho : sys.open_null = some fd) (h1 : sys.dup2_stdin_ok = true)
    (h2 : sys.dup2_stdout_ok = true) :
    ((nxt_process_daemon sys).closed_fd
        = if STDERR_FILENO < fd then some fd else none)
    ∧ ((nxt_process_daemon sys).outcome = DaemonOutcome.ok) := by
  rcases sys with ⟨fr, ss, op, d1, d2⟩
  simp only at hf hs ho h1 h2
  subst hf hs ho h1 h2
  simp [nxt_process_daemon]

/-- Witness for C9 at a concrete input: descriptor 3 is closed. -/
theorem nxt_process_daemon_c9_witness :
    ((nxt_process_daemon
          ⟨ForkResult.child, true, some 3, true, true⟩).closed_fd = some 3)
    ∧ ((nxt_process_daemon
          ⟨ForkResult.child, true, some 3, true, true⟩).outcome
        = DaemonOutcome.ok) := by
  have h := nxt_process_daemon_c9
    ⟨ForkResult.child, true, some 3, true, true⟩ 3 rfl rfl rfl rfl rfl
  simpa using h

/-- Witness for C10 at a concrete input: the user resolves to
uid 65534 / gid 65534, the group lookup fails, and the call returns
`NXT_ERROR` with `uid` and `base_gid` already overwritten. -/
theorem nxt_user_cred_get_c10_witness :
    nxt_user_cred_get
        ⟨some (65534, 65534), none, true,
          ⟨true, true, true, true, true, true, true, true, [], 0⟩⟩
        [0] ⟨"nobody", 0, 0, 0, none⟩ (some "www")
      = ([0], ⟨"nobody", 65534, 65534, 0, none⟩, NXT_ERROR) :=
  nxt_user_cred_get_c10
    ⟨some (65534, 65534), none, true,
      ⟨true, true, true, true, true, true, true, true, [], 0⟩⟩
    [0] ⟨"nobody", 0, 0, 0, none⟩ "www" (65534, 65534) rfl
    (by decide) rfl

end NxtProcess
